import Mathlib

/-!
Shallow embedding of `src/cyberdna1.py` (CyberDNA cybersecurity simulation).

Samples and anomaly reports are modelled as association lists in insertion
order, mirroring Python dicts built from literals.  `random.randint lo hi`
is modelled by a function of an arbitrary natural seed whose image is
exactly the integer interval `[lo, hi]`.  A Python `KeyError` is modelled
by an `Option` result.  The Streamlit session state driving
`run_simulation` is modelled as an explicit state machine over the events
a rerun can process (start button, reset button, and the per-rerun tick of
the running simulation).
-/

namespace CyberDNA

/-- Baseline for healthy system behavior (`baseline`, lines 15-19):
metric name mapped to inclusive (low, high) integer bounds, in source
order. -/
def baseline : List (String × Int × Int) :=
  [("cpu_usage", 10, 15),
   ("network_activity", 20, 40),
   ("file_access_rate", 0, 3)]

/-- Model of Python `random.randint lo hi`: some integer of the inclusive
interval `[lo, hi]`, chosen by an arbitrary seed.  For `lo ≤ hi` every
seed yields a value in the interval and every value of the interval is
reached by some seed. -/
def randint (lo hi : Int) (seed : Nat) : Int :=
  lo + ((seed % (hi - lo + 1).toNat : Nat) : Int)

/-- `simulate_behavior` (lines 21-35): on the final cycle
(`cycle == total - 1`) a fixed safe sample, otherwise fresh random values
from the wider ranges 5-45, 10-50 and 0-7, one seed per `randint` call. -/
def simulate_behavior (cycle total : Int) (s1 s2 s3 : Nat) :
    List (String × Int) :=
  if cycle = total - 1 then
    [("cpu_usage", 12),
     ("network_activity", 30),
     ("file_access_rate", 1)]
  else
    [("cpu_usage", randint 5 45 s1),
     ("network_activity", randint 10 50 s2),
     ("file_access_rate", randint 0 7 s3)]

/-- One entry of the anomaly report (lines 43-46): the offending value and
the expected range rendered as a string. -/
structure AnomalyEntry where
  value : Int
  expected_range : String
  deriving Repr, DecidableEq

/-- The f-string `f"{low}-{high}"` of line 45. -/
def rangeStr (low high : Int) : String :=
  toString low ++ "-" ++ toString high

/-- Loop body of `detect_anomalies` over the baseline items.  A missing
sample key is Python's `KeyError`, modelled as `none`; an out-of-range
value contributes an entry, in baseline order. -/
def detectAux : List (String × Int × Int) → List (String × Int) →
    Option (List (String × AnomalyEntry))
  | [], _ => some []
  | (k, low, high) :: items, values =>
    match values.lookup k with
    | none => none
    | some v =>
      match detectAux items values with
      | none => none
      | some rest =>
        if low ≤ v ∧ v ≤ high then some rest
        else some ((k, ⟨v, rangeStr low high⟩) :: rest)

/-- `detect_anomalies` (lines 37-47): compare a sample against the
baseline ranges. -/
def detect_anomalies (values : List (String × Int)) :
    Option (List (String × AnomalyEntry)) :=
  detectAux baseline values

/-- Whether `detect_anomalies` succeeds on `values` and reports metric `k`
as anomalous. -/
def reportedB (values : List (String × Int)) (k : String) : Bool :=
  match detect_anomalies values with
  | some r => (r.lookup k).isSome
  | none => false

/-- Display status of one message emitted through the response
placeholder: `st.warning` or `st.success` (lines 100-104). -/
inductive MsgKind where
  | warning
  | success
  deriving Repr, DecidableEq

/-- The `response_steps` list of `show_threat_response` (lines 93-98). -/
def response_steps : List String :=
  ["🔍 Analyzing threat patterns...",
   "🛡️ Isolating affected systems...",
   "🔧 Rolling back malicious changes...",
   "✅ System healed and secured!"]

/-- `show_threat_response` (lines 86-105), as the sequence of messages it
pushes through the response placeholder: each step with its display
status, all but the last a warning, the last a success. -/
def show_threat_response : List (String × MsgKind) :=
  response_steps.enum.map (fun p =>
    (p.2, if p.1 < response_steps.length - 1 then MsgKind.warning
          else MsgKind.success))

/-- Placeholder output of one simulation cycle for a given anomaly
report: `show_threat_response` runs exactly when the report is non-empty
(lines 163-165). -/
def threat_response_output (anomalies : List (String × AnomalyEntry)) :
    List (String × MsgKind) :=
  if anomalies.isEmpty then [] else show_threat_response

/-- Value of the `anomalies` field of the per-cycle JSON record:
`anomalies if anomalies else "None detected"` (line 160) is either the
anomaly mapping or the literal string. -/
inductive AnomaliesField where
  | text (s : String)
  | mapping (r : List (String × AnomalyEntry))
  deriving Repr, DecidableEq

/-- The structured per-cycle record shown by `st.json` (lines 155-161). -/
structure CycleRecord where
  timestamp : String
  cycle : Int
  metrics : List (String × Int)
  anomalies : AnomaliesField
  deriving Repr, DecidableEq

/-- The record built on lines 156-161: the displayed cycle number is the
zero-based session cycle plus one, and the anomalies field falls back to
the string "None detected" for an empty (falsy) report. -/
def cycle_record (timestamp : String) (cycle : Int)
    (values : List (String × Int))
    (anomalies : List (String × AnomalyEntry)) : CycleRecord :=
  { timestamp := timestamp,
    cycle := cycle + 1,
    metrics := values,
    anomalies :=
      if anomalies.isEmpty then AnomaliesField.text "None detected"
      else AnomaliesField.mapping anomalies }

/-- The Streamlit session state used by `run_simulation`
(lines 113-116). -/
structure RunState where
  simulation_running : Bool
  cycle : Int
  total_cycles : Int
  deriving Repr, DecidableEq

/-- Initial session state (lines 113-116): not running, cycle 0, three
total cycles. -/
def initState : RunState :=
  { simulation_running := false, cycle := 0, total_cycles := 3 }

/-- The events a rerun of the script can process: the start button
(lines 122-124), the reset button (lines 126-130), and the tick of an
active simulation (lines 137-179). -/
inductive Event where
  | startBtn
  | resetBtn
  | tick
  deriving Repr, DecidableEq

/-- One transition of the session state.  Start is disabled while the
simulation runs; reset stops and rewinds unconditionally; a tick of a
running simulation either performs a cycle and increments the counter
(line 171) or, once the counter reaches the total, completes and stops
(line 179).  A tick while idle changes nothing. -/
def step (s : RunState) (e : Event) : RunState :=
  match e with
  | Event.startBtn =>
    if s.simulation_running then s
    else { s with simulation_running := true, cycle := 0 }
  | Event.resetBtn =>
    { s with simulation_running := false, cycle := 0 }
  | Event.tick =>
    if s.simulation_running then
      if s.cycle < s.total_cycles then { s with cycle := s.cycle + 1 }
      else { s with simulation_running := false }
    else s

/-- States reachable from the initial session state through the events. -/
inductive Reachable : RunState → Prop
  | refl : Reachable initState
  | next (s : RunState) (e : Event) : Reachable s → Reachable (step s e)

/-- The three seeds a non-final cycle draws, one per `randint` call. -/
structure CycleSeeds where
  s1 : Nat
  s2 : Nat
  s3 : Nat

/-- Number of cycles of a full run whose anomaly report is non-empty,
for a given total and per-cycle seeds. -/
def runAnomalyCount (total : Int) (seeds : Nat → CycleSeeds) : Nat :=
  ((List.range total.toNat).map (fun c =>
    detect_anomalies (simulate_behavior (Int.ofNat c) total
      (seeds c).s1 (seeds c).s2 (seeds c).s3))).countP
    (fun r => decide (r ≠ some []))

/-- The "Threats Detected" field of the completion summary (line 185):
`total_cycles - 1`, computed without consulting the run's actual anomaly
reports (the seeds argument is deliberately unused, as in the source). -/
def simulation_summary_threats (total : Int) (_seeds : Nat → CycleSeeds) :
    Int :=
  total - 1

/-! ### Characterization of the detector -/

/-- Closed form of `detect_anomalies`: with the three baseline metrics
looked up in the sample, the report is the concatenation, in baseline
order, of one entry per strictly-out-of-range value; a missing baseline
key yields the `KeyError` outcome. -/
theorem detect_anomalies_eq (values : List (String × Int)) :
    detect_anomalies values =
      match values.lookup "cpu_usage", values.lookup "network_activity",
            values.lookup "file_access_rate" with
      | some a, some b, some c =>
        some ((if 10 ≤ a ∧ a ≤ 15 then []
               else [("cpu_usage", ⟨a, rangeStr 10 15⟩)]) ++
              (if 20 ≤ b ∧ b ≤ 40 then []
               else [("network_activity", ⟨b, rangeStr 20 40⟩)]) ++
              (if 0 ≤ c ∧ c ≤ 3 then []
               else [("file_access_rate", ⟨c, rangeStr 0 3⟩)]))
      | _, _, _ => none := by
  rcases h1 : values.lookup "cpu_usage" with _ | a <;>
    rcases h2 : values.lookup "network_activity" with _ | b <;>
      rcases h3 : values.lookup "file_access_rate" with _ | c <;>
        simp [detect_anomalies, detectAux, baseline, h1, h2, h3] <;>
          split_ifs <;> simp

/-- C1: on every sample containing the three baseline metrics,
`detect_anomalies` reports a metric exactly when its value lies strictly
outside the inclusive baseline range `[low, high]`; in particular a value
equal to `low` or `high` is never reported and `low - 1` or `high + 1`
always is. -/
theorem detect_reports_iff_strictly_outside
    (values : List (String × Int)) (a b c : Int)
    (ha : values.lookup "cpu_usage" = some a)
    (hb : values.lookup "network_activity" = some b)
    (hc : values.lookup "file_access_rate" = some c) :
    (reportedB values "cpu_usage" = true ↔ ¬(10 ≤ a ∧ a ≤ 15)) ∧
    (reportedB values "network_activity" = true ↔ ¬(20 ≤ b ∧ b ≤ 40)) ∧
    (reportedB values "file_access_rate" = true ↔ ¬(0 ≤ c ∧ c ≤ 3)) := by
  have h := detect_anomalies_eq values
  rw [ha, hb, hc] at h
  simp only [reportedB, h]
  split_ifs <;> simp_all [List.lookup]

/-- Witness for C1 at a concrete sample: `cpu_usage = 9 = low - 1` is
reported, `network_activity = 20 = low` is not, and
`file_access_rate = 4 = high + 1` is reported. -/
theorem detect_reports_iff_strictly_outside_witness :
    reportedB [("cpu_usage", 9), ("network_activity", 20),
      ("file_access_rate", 4)] "cpu_usage" = true ∧
    reportedB [("cpu_usage", 9), ("network_activity", 20),
      ("file_access_rate", 4)] "network_activity" = false ∧
    reportedB [("cpu_usage", 9), ("network_activity", 20),
      ("file_access_rate", 4)] "file_access_rate" = true := by
  have h := detect_reports_iff_strictly_outside
    [("cpu_usage", 9), ("network_activity", 20), ("file_access_rate", 4)]
    9 20 4 (by decide) (by decide) (by decide)
  refine ⟨h.1.mpr (by decide), ?_, h.2.2.mpr (by decide)⟩
  have h2 := h.2.1
  revert h2
  decide

/-- C2: for every total cycle count (and any seeds), the sample of the
last cycle (`cycle = total - 1`) is the fixed triple 12 / 30 / 1, each
value lies within its metric's inclusive baseline range, and the detector
returns the empty report on it. -/
theorem final_cycle_sample_safe (total : Int) (s1 s2 s3 : Nat) :
    simulate_behavior (total - 1) total s1 s2 s3 =
      [("cpu_usage", 12), ("network_activity", 30),
       ("file_access_rate", 1)] ∧
    (∀ k low high v, (k, low, high) ∈ baseline →
      (simulate_behavior (total - 1) total s1 s2 s3).lookup k = some v →
      low ≤ v ∧ v ≤ high) ∧
    detect_anomalies (simulate_behavior (total - 1) total s1 s2 s3) =
      some [] := by
  have hs : simulate_behavior (total - 1) total s1 s2 s3 =
      [("cpu_usage", 12), ("network_activity", 30),
       ("file_access_rate", 1)] := by
    simp [simulate_behavior]
  refine ⟨hs, ?_, ?_⟩
  · intro k low high v hk hv
    rw [hs] at hv
    simp only [baseline, List.mem_cons, List.not_mem_nil, or_false] at hk
    rcases hk with h | h | h <;>
      · simp only [Prod.mk.injEq] at h
        obtain ⟨rfl, rfl, rfl⟩ := h
        simp [List.lookup] at hv
        omega
  · rw [hs]
    decide

/-- Witness for C2 at total = 3: the cpu value 12 of the final sample is
inside its baseline bounds, and the detector reports nothing. -/
theorem final_cycle_sample_safe_witness :
    ((10 : Int) ≤ 12 ∧ (12 : Int) ≤ 15) ∧
    detect_anomalies (simulate_behavior (3 - 1) 3 0 0 0) = some [] :=
  ⟨(final_cycle_sample_safe 3 0 0 0).2.1 "cpu_usage" 10 15 12
      (by decide) (by decide),
   (final_cycle_sample_safe 3 0 0 0).2.2⟩

/-! ### The cycle state machine -/

/-- Every reachable session state keeps the fixed total of 3 cycles and a
cycle counter between 0 and the total. -/
theorem reachable_invariant (s : RunState) (h : Reachable s) :
    s.total_cycles = 3 ∧ 0 ≤ s.cycle ∧ s.cycle ≤ s.total_cycles := by
  induction h with
  | refl => simp [initState]
  | next s e _ ih =>
    rcases e with _ | _ | _
    · simp only [step]
      split_ifs <;> simp_all <;> omega
    · simp only [step]
      simp_all
    · simp only [step]
      split_ifs <;> simp_all <;> omega

/-- C3: from the initial state (cycle 0, 3 total cycles) every reachable
state has `0 ≤ cycle ≤ total_cycles`; on a running state, a tick of the
cycle machine completes (stops running) exactly when the counter has
reached the total, and otherwise stays running with the counter
incremented by exactly one. -/
theorem running_tick_behavior (s : RunState) (h : Reachable s)
    (hr : s.simulation_running = true) :
    (s.total_cycles = 3 ∧ 0 ≤ s.cycle ∧ s.cycle ≤ s.total_cycles) ∧
    ((step s Event.tick).simulation_running = false ↔
      s.cycle = s.total_cycles) ∧
    (s.cycle ≠ s.total_cycles →
      (step s Event.tick).simulation_running = true ∧
      (step s Event.tick).cycle = s.cycle + 1) := by
  obtain ⟨ht, h0, hle⟩ := reachable_invariant s h
  refine ⟨⟨ht, h0, hle⟩, ?_, ?_⟩ <;>
    simp only [step, hr, if_true] <;> split_ifs <;> simp_all <;> omega

/-- Witness for C3: after pressing start in the initial state the
simulation is running at cycle 0, and the first tick keeps it running and
moves the counter to 1. -/
theorem running_tick_behavior_witness :
    (step (step initState Event.startBtn) Event.tick).simulation_running =
      true ∧
    (step (step initState Event.startBtn) Event.tick).cycle =
      (step initState Event.startBtn).cycle + 1 :=
  (running_tick_behavior (step initState Event.startBtn)
    (Reachable.next _ _ Reachable.refl) (by decide)).2.2 (by decide)

/-- C6: the reset action yields `running = false` and `cycle = 0` from
every prior session state. -/
theorem reset_clears_state (s : RunState) :
    (step s Event.resetBtn).simulation_running = false ∧
    (step s Event.resetBtn).cycle = 0 := by
  simp [step]

/-- Witness for C6 at a mid-run state. -/
theorem reset_clears_state_witness :
    (step { simulation_running := true, cycle := 2, total_cycles := 3 }
        Event.resetBtn).simulation_running = false ∧
    (step { simulation_running := true, cycle := 2, total_cycles := 3 }
        Event.resetBtn).cycle = 0 :=
  reset_clears_state
    { simulation_running := true, cycle := 2, total_cycles := 3 }

/-! ### The sample generator -/

/-- The modelled `random.randint lo hi` lands in `[lo, hi]` for every
seed, provided `lo ≤ hi`. -/
theorem randint_mem (lo hi : Int) (seed : Nat) (h : lo ≤ hi) :
    lo ≤ randint lo hi seed ∧ randint lo hi seed ≤ hi := by
  unfold randint
  have hn : 0 < (hi - lo + 1).toNat := by omega
  have := Nat.mod_lt seed hn
  omega

/-- C4: on every non-final cycle, the generated sample consists of one
value per metric with `cpu_usage ∈ [5, 45]`, `network_activity ∈ [10, 50]`
and `file_access_rate ∈ [0, 7]`, whatever the seeds. -/
theorem nonfinal_sample_in_wide_ranges (cycle total : Int)
    (s1 s2 s3 : Nat) (h : cycle ≠ total - 1) :
    ∃ a b c,
      simulate_behavior cycle total s1 s2 s3 =
        [("cpu_usage", a), ("network_activity", b),
         ("file_access_rate", c)] ∧
      5 ≤ a ∧ a ≤ 45 ∧ 10 ≤ b ∧ b ≤ 50 ∧ 0 ≤ c ∧ c ≤ 7 := by
  refine ⟨randint 5 45 s1, randint 10 50 s2, randint 0 7 s3, ?_, ?_⟩
  · simp [simulate_behavior, h]
  · obtain ⟨ha1, ha2⟩ := randint_mem 5 45 s1 (by decide)
    obtain ⟨hb1, hb2⟩ := randint_mem 10 50 s2 (by decide)
    obtain ⟨hc1, hc2⟩ := randint_mem 0 7 s3 (by decide)
    exact ⟨ha1, ha2, hb1, hb2, hc1, hc2⟩

/-- Witness for C4 on cycle 0 of 3 with all seeds 0. -/
theorem nonfinal_sample_in_wide_ranges_witness :
    ∃ a b c,
      simulate_behavior 0 3 0 0 0 =
        [("cpu_usage", a), ("network_activity", b),
         ("file_access_rate", c)] ∧
      5 ≤ a ∧ a ≤ 45 ∧ 10 ≤ b ∧ b ≤ 50 ∧ 0 ≤ c ∧ c ≤ 7 :=
  nonfinal_sample_in_wide_ranges 0 3 0 0 0 (by decide)

/-- C5: the wide generator ranges straddle the baseline ranges: some
seeds make a non-final cycle fully compliant (empty report), and some
seeds make every one of the three metrics anomalous at once, so on a
non-final cycle an anomaly for each metric is possible but not
guaranteed. -/
theorem wide_ranges_straddle_baseline :
    detect_anomalies (simulate_behavior 0 3 7 20 1) = some [] ∧
    (∃ r, detect_anomalies (simulate_behavior 0 3 0 0 7) = some r ∧
      (r.lookup "cpu_usage").isSome ∧
      (r.lookup "network_activity").isSome ∧
      (r.lookup "file_access_rate").isSome) := by
  refine ⟨by decide, ?_⟩
  refine ⟨_, rfl, ?_, ?_, ?_⟩ <;> decide

/-! ### Response sequencer, per-cycle record, summary -/

/-- C7: for every non-empty anomaly report, the cycle's response output
is the same fixed four-step sequence, the first three steps warnings and
the last a success, independent of which metrics are anomalous or of
their values. -/
theorem response_script_fixed (anomalies : List (String × AnomalyEntry))
    (h : anomalies ≠ []) :
    threat_response_output anomalies =
      [("🔍 Analyzing threat patterns...", MsgKind.warning),
       ("🛡️ Isolating affected systems...", MsgKind.warning),
       ("🔧 Rolling back malicious changes...", MsgKind.warning),
       ("✅ System healed and secured!", MsgKind.success)] := by
  cases anomalies with
  | nil => exact absurd rfl h
  | cons x xs => rfl

/-- Witness for C7 at a concrete one-metric anomaly report. -/
theorem response_script_fixed_witness :
    threat_response_output [("cpu_usage", ⟨50, rangeStr 10 15⟩)] =
      [("🔍 Analyzing threat patterns...", MsgKind.warning),
       ("🛡️ Isolating affected systems...", MsgKind.warning),
       ("🔧 Rolling back malicious changes...", MsgKind.warning),
       ("✅ System healed and secured!", MsgKind.success)] :=
  response_script_fixed [("cpu_usage", ⟨50, rangeStr 10 15⟩)] (by simp)

/-- C8: the per-cycle record carries the given timestamp, metrics and the
current cycle (displayed one-based, as `cycle + 1`), and its anomalies
field is the string "None detected" exactly when the report is empty and
the anomaly mapping itself otherwise. -/
theorem cycle_record_fields (timestamp : String) (cycle : Int)
    (values : List (String × Int))
    (anomalies : List (String × AnomalyEntry)) :
    (cycle_record timestamp cycle values anomalies).timestamp =
      timestamp ∧
    (cycle_record timestamp cycle values anomalies).cycle = cycle + 1 ∧
    (cycle_record timestamp cycle values anomalies).metrics = values ∧
    ((cycle_record timestamp cycle values anomalies).anomalies =
        AnomaliesField.text "None detected" ↔ anomalies = []) ∧
    (anomalies ≠ [] →
      (cycle_record timestamp cycle values anomalies).anomalies =
        AnomaliesField.mapping anomalies) := by
  refine ⟨rfl, rfl, rfl, ?_, ?_⟩ <;>
    cases anomalies <;> simp [cycle_record]

/-- Witness for C8: an empty report renders as "None detected", a
non-empty one as the mapping itself. -/
theorem cycle_record_fields_witness :
    (cycle_record "2026-10-12 00:00:00" 0
        [("cpu_usage", 12)] []).anomalies =
      AnomaliesField.text "None detected" ∧
    (cycle_record "2026-10-12 00:00:00" 1 [("cpu_usage", 50)]
        [("cpu_usage", ⟨50, rangeStr 10 15⟩)]).anomalies =
      AnomaliesField.mapping [("cpu_usage", ⟨50, rangeStr 10 15⟩)] :=
  ⟨(cycle_record_fields "2026-10-12 00:00:00" 0
      [("cpu_usage", 12)] []).2.2.2.1.mpr rfl,
   (cycle_record_fields "2026-10-12 00:00:00" 1 [("cpu_usage", 50)]
      [("cpu_usage", ⟨50, rangeStr 10 15⟩)]).2.2.2.2 (by simp)⟩

/-- C9: the completion summary computes "Threats Detected" as
`total_cycles - 1 = 2` whatever the run's seeds, even though a run whose
seeds keep every non-final sample inside baseline produces zero
non-empty anomaly reports. -/
theorem summary_threats_fixed (seeds : Nat → CycleSeeds) :
    simulation_summary_threats 3 seeds = 2 ∧
    runAnomalyCount 3 (fun _ => ⟨7, 20, 1⟩) = 0 := by
  exact ⟨rfl, by decide⟩

/-- Witness for C9 at a concrete seed assignment. -/
theorem summary_threats_fixed_witness :
    simulation_summary_threats 3 (fun _ => ⟨0, 0, 0⟩) = 2 ∧
    runAnomalyCount 3 (fun _ => ⟨7, 20, 1⟩) = 0 :=
  summary_threats_fixed (fun _ => ⟨0, 0, 0⟩)

/-- C10: `detect_anomalies` consults exactly the baseline keys: it
succeeds precisely when the sample has an entry for each of the three
baseline metrics (and fails with the `KeyError` outcome otherwise), its
result depends only on the sample's values at the baseline keys (extra
keys are ignored), and every entry of a returned report is keyed by a
baseline metric and carries the sample's value for it together with the
range string "low-high". -/
theorem detect_domain_and_report_shape (values : List (String × Int)) :
    ((∃ a, values.lookup "cpu_usage" = some a) ∧
     (∃ b, values.lookup "network_activity" = some b) ∧
     (∃ c, values.lookup "file_access_rate" = some c) ↔
      ∃ r, detect_anomalies values = some r) ∧
    (∀ values' : List (String × Int),
      (∀ k lh, (k, lh) ∈ baseline → values'.lookup k = values.lookup k) →
      detect_anomalies values' = detect_anomalies values) ∧
    (∀ r, detect_anomalies values = some r →
      ∀ k e, (k, e) ∈ r →
        ∃ low high, (k, (low, high)) ∈ baseline ∧
          values.lookup k = some e.value ∧
          e.expected_range = rangeStr low high) := by
  refine ⟨?_, ?_, ?_⟩
  · rw [detect_anomalies_eq values]
    rcases h1 : values.lookup "cpu_usage" with _ | a <;>
      rcases h2 : values.lookup "network_activity" with _ | b <;>
        rcases h3 : values.lookup "file_access_rate" with _ | c <;>
          simp
  · intro values' hagree
    have h1 := hagree "cpu_usage" (10, 15) (by decide)
    have h2 := hagree "network_activity" (20, 40) (by decide)
    have h3 := hagree "file_access_rate" (0, 3) (by decide)
    rw [detect_anomalies_eq values', detect_anomalies_eq values,
      h1, h2, h3]
  · intro r hr k e hke
    rw [detect_anomalies_eq values] at hr
    rcases h1 : values.lookup "cpu_usage" with _ | a <;> rw [h1] at hr
    · exact absurd hr (by simp)
    rcases h2 : values.lookup "network_activity" with _ | b <;>
      rw [h2] at hr
    · exact absurd hr (by simp)
    rcases h3 : values.lookup "file_access_rate" with _ | c <;>
      rw [h3] at hr
    · exact absurd hr (by simp)
    simp only [Option.some.injEq] at hr
    subst hr
    simp only [List.mem_append] at hke
    rcases hke with (hke | hke) | hke <;> split_ifs at hke <;>
      simp only [List.mem_singleton, List.not_mem_nil] at hke <;>
        obtain ⟨rfl, rfl⟩ := Prod.mk.injEq .. |>.mp hke
    · exact ⟨10, 15, by decide, h1, rfl⟩
    · exact ⟨20, 40, by decide, h2, rfl⟩
    · exact ⟨0, 3, by decide, h3, rfl⟩

/-- Witness for C10: the detector succeeds on a sample that contains the
three baseline metrics plus an extra key. -/
theorem detect_domain_and_report_shape_witness :
    ∃ r, detect_anomalies [("cpu_usage", 9), ("network_activity", 30),
      ("file_access_rate", 0), ("extra", 99)] = some r :=
  (detect_domain_and_report_shape
    [("cpu_usage", 9), ("network_activity", 30),
     ("file_access_rate", 0), ("extra", 99)]).1.mp
    ⟨⟨9, by decide⟩, ⟨30, by decide⟩, ⟨0, by decide⟩⟩

end CyberDNA
